import Mathlib

/-!
# Request handlers of the IPU4 virtio backend stream layer

A shallow embedding of `drivers/media/pci/intel/virtio/intel-ipu4-virtio-be-stream.c`.

* The stream registry is the global pair `hash_initialised` / `STREAM_NODE_HASH`: a table of
  `2 ^ MAX_SIZE` bucket chains of `stream_node`s.
* Everything the handlers call outside the file (allocator, `filp_open`, `map_guest_phys`,
  the device's ioctl operations, the buffer-queue test and the bounded wait) is an oracle
  collected in `Env`; each handler returns the calls it made as a trace.
* The bucket function `hash_min` of `linux/hashtable.h` is a parameter of every handler: the
  only thing used about it is that it maps a key to one of the `2 ^ MAX_SIZE` buckets.
* A handler that dereferences a pointer that cannot be dereferenced (a null or error pointer)
  does not return: its `ret` is `none`.
-/

namespace Ipu4VirtioBe

/-! ## Data model -/

/-- The `MAX_SIZE` of the source: the registry has `2 ^ 6` buckets. -/
abbrev MAX_SIZE : Nat := 6

/-- Number of buckets declared by `DECLARE_HASHTABLE(STREAM_NODE_HASH, MAX_SIZE)`. -/
abbrev HASH_SIZE : Nat := 2 ^ MAX_SIZE

/-- The two request results the handlers return. -/
inductive ReqStatus where
  | IPU4_REQ_PROCESSED
  | IPU4_REQ_ERROR
deriving DecidableEq, Repr

/-- The native stream device behind an open file; `virt_dev_id` is the field that
`process_device_open` tags with the virtual stream id. -/
structure ici_stream_device where
  dev : Nat
  virt_dev_id : Nat
deriving DecidableEq, Repr

/-- An open `struct file`: what the handlers read of it is `private_data`,
the stream device or `NULL`. -/
structure file where
  private_data : Option ici_stream_device
deriving DecidableEq, Repr

/-- The `struct stream_node` of the source; the `hlist_node` link is the position of the
node in its bucket chain. The node carries no stream id. -/
structure stream_node where
  client_id : Int
  f : file
deriving DecidableEq, Repr

/-- The global registry: the flag `hash_initialised` and the table `STREAM_NODE_HASH`,
one chain per bucket, head of the chain first. -/
structure Registry where
  hash_initialised : Bool
  STREAM_NODE_HASH : Fin HASH_SIZE → List stream_node

/-- The request: `op` is `req->op[0]` (the stream id), `payload` the guest physical
address of the payload, `stat` and `func_ret` the two fields the handlers write
(`stat` is `none` until a handler writes it). -/
structure ipu4_virtio_req where
  op : Nat
  payload : Nat
  stat : Option ReqStatus
  func_ret : Int
deriving DecidableEq, Repr

/-- The `struct ipu4_virtio_req_info`: the request and the id of the issuing guest. -/
structure ipu4_virtio_req_info where
  request : ipu4_virtio_req
  domid : Int
deriving DecidableEq, Repr

/-- The calls a handler makes outside the file, in the order it makes them. The length
argument of `map_guest_phys` is `PAGE_SIZE` at every call site and is left out.
`data_pages` is `none` for a null list; a slot of the list is `none` while it still holds
the zero that `kcalloc` put there. -/
inductive Call where
  | kzalloc
  | filp_open (id : Nat)
  | filp_close (f : file)
  | kfree
  | map_guest_phys (domid : Int) (gpa : Nat)
  | kcalloc (n : Int)
  | list_empty (d : ici_stream_device)
  | wait_event_interruptible_timeout (d : ici_stream_device)
  | ici_set_format (f : file) (d : ici_stream_device) (host_virt : Nat)
  | ici_put_buf (f : file) (d : ici_stream_device) (host_virt : Nat)
  | ici_get_buf_virt (f : file) (d : ici_stream_device) (shared_buf : Nat)
      (data_pages : Option (List (Option Nat)))
  | ici_stream_on (f : file) (d : ici_stream_device)
  | ici_stream_off (f : file) (d : ici_stream_device)
deriving DecidableEq, Repr

/-- The calls that go to the device: its ioctl operations, the queue test and the wait. -/
def Call.isDevice : Call → Bool
  | .ici_set_format _ _ _ => true
  | .ici_put_buf _ _ _ => true
  | .ici_get_buf_virt _ _ _ _ => true
  | .ici_stream_on _ _ => true
  | .ici_stream_off _ _ => true
  | .list_empty _ => true
  | .wait_event_interruptible_timeout _ => true
  | _ => false

/-- The buffer-export calls. -/
def Call.isExport : Call → Bool
  | .ici_get_buf_virt _ _ _ _ => true
  | _ => false

/-- The bounded waits. -/
def Call.isWait : Call → Bool
  | .wait_event_interruptible_timeout _ => true
  | _ => false

/-- The outcomes of the external calls of one handler invocation.

* `kzalloc`, `kcalloc n`: whether the allocation returns a non-null pointer.
* `filp_open id`: the file opened for `/dev/intel_stream<id>`, `none` when the open fails
  (the pointer returned is then not a file).
* `map_guest_phys domid gpa`: the host address, `none` for `NULL`.
* `npages p`, `page_table_ref p`: the fields `kframe_info.planes[0].npages` and
  `kframe_info.planes[0].page_table_ref` of the buffer wrapper at host address `p`.
* `page_table p i`: the entry `page_table[i]` of the table at host address `p`.
* `virt_to_page`: the page of a host address.
* `list_empty d`: whether the put-buffer queue of the stream is empty when tested.
* `wait_event_interruptible_timeout d`: the value the bounded wait returns, nonzero when
  the queue was seen non-empty, zero when the time ran out first.

The error codes of the `ici_` operations select a log line and nothing else, so they are
not among the oracles. -/
structure Env where
  kzalloc : Bool
  filp_open : Nat → Option file
  map_guest_phys : Int → Nat → Option Nat
  kcalloc : Int → Bool
  npages : Nat → Int
  page_table_ref : Nat → Nat
  page_table : Nat → Nat → Nat
  virt_to_page : Nat → Nat
  list_empty : ici_stream_device → Bool
  wait_event_interruptible_timeout : ici_stream_device → Int

/-- What one handler invocation leaves behind: the value returned (`none` when the handler
dereferenced a null or error pointer and so never returned), the registry, the request
with the fields written so far, and the external calls made. -/
structure Result where
  ret : Option ReqStatus
  st : Registry
  req : ipu4_virtio_req
  trace : List Call

/-- The registry before any handler ran: the flag is clear and the static table is zero. -/
def Registry.initial : Registry :=
  { hash_initialised := false, STREAM_NODE_HASH := fun _ => [] }

/-- The effect of `hash_init`: every bucket is made empty. -/
def hash_init (st : Registry) : Registry :=
  { st with STREAM_NODE_HASH := fun _ => [] }

/-- The effect of `hash_add(STREAM_NODE_HASH, &sn->node, key)`: the node becomes the head of
the chain of the key's bucket. -/
def hash_add (hash_min : Nat → Fin HASH_SIZE) (st : Registry) (sn : stream_node)
    (key : Nat) : Registry :=
  { st with STREAM_NODE_HASH :=
      Function.update st.STREAM_NODE_HASH (hash_min key) (sn :: st.STREAM_NODE_HASH (hash_min key)) }

/-- The chain that `hash_for_each_possible(STREAM_NODE_HASH, sn, node, key)` walks: every
node of the key's bucket. -/
def hash_possible (hash_min : Nat → Fin HASH_SIZE) (st : Registry) (key : Nat) :
    List stream_node :=
  st.STREAM_NODE_HASH (hash_min key)

/-- The lookup loop shared by the six stream handlers: the walk stops at its first node
(`found = 1; break;`), so `sn` is the head of the chain and `found` is whether there is one. -/
def lookup (hash_min : Nat → Fin HASH_SIZE) (st : Registry) (key : Nat) : Option stream_node :=
  (hash_possible hash_min st key).head?

/-- Number of nodes in the table. -/
def Registry.count (st : Registry) : Nat :=
  ((List.finRange HASH_SIZE).map (fun b => (st.STREAM_NODE_HASH b).length)).sum

/-! ## Open and close -/

/-- The `process_device_open` of the source. -/
def process_device_open (hash_min : Nat → Fin HASH_SIZE) (env : Env) (st : Registry)
    (req_info : ipu4_virtio_req_info) : Result :=
  let req := req_info.request
  let domid := req_info.domid
  let st1 := if st.hash_initialised then st else { hash_init st with hash_initialised := true }
  match hash_possible hash_min st1 req.op with
  | sn :: _ =>
    if sn.client_id ≠ domid then
      { ret := some .IPU4_REQ_ERROR, st := st1, req := req, trace := [] }
    else
      { ret := some .IPU4_REQ_PROCESSED, st := st1, req := req, trace := [] }
  | [] =>
    -- sn = kzalloc(...); sn->f = filp_open(node_name, ...);
    let tr := [Call.kzalloc, Call.filp_open req.op]
    if !env.kzalloc then
      { ret := none, st := st1, req := req, trace := tr }
    else
      match env.filp_open req.op with
      | none =>
        -- strm_dev = sn->f->private_data, read through the pointer of a failed open
        { ret := none, st := st1, req := req, trace := tr }
      | some f =>
        match f.private_data with
        | none => { ret := some .IPU4_REQ_ERROR, st := st1, req := req, trace := tr }
        | some strm_dev =>
          let sn : stream_node :=
            { client_id := domid,
              f := { private_data := some { strm_dev with virt_dev_id := req.op } } }
          { ret := some .IPU4_REQ_PROCESSED, st := hash_add hash_min st1 sn req.op,
            req := req, trace := tr }

/-- The `process_device_close` of the source. `hash_del` unlinks the node and sets its
`next` pointer to `NULL`; after `filp_close` and `kfree` the walk takes its next node from
that pointer of the node just freed, so the walk ends after the first node of the chain.
On a chain of at most one node, which is every chain of a reachable registry, this is the
same as emptying the bucket. -/
def process_device_close (hash_min : Nat → Fin HASH_SIZE) (_env : Env) (st : Registry)
    (req_info : ipu4_virtio_req_info) : Result :=
  let req := req_info.request
  if !st.hash_initialised then
    { ret := some .IPU4_REQ_PROCESSED, st := st, req := req, trace := [] }
  else
    match hash_possible hash_min st req.op with
    | [] => { ret := some .IPU4_REQ_PROCESSED, st := st, req := req, trace := [] }
    | sn :: rest =>
      { ret := some .IPU4_REQ_PROCESSED,
        st := { st with STREAM_NODE_HASH :=
                  Function.update st.STREAM_NODE_HASH (hash_min req.op) rest },
        req := req, trace := [Call.filp_close sn.f, Call.kfree] }

/-! ## The stream handlers -/

/-- The `process_set_format` of the source. -/
def process_set_format (hash_min : Nat → Fin HASH_SIZE) (env : Env) (st : Registry)
    (req_info : ipu4_virtio_req_info) : Result :=
  let req := req_info.request
  let domid := req_info.domid
  if !st.hash_initialised then
    { ret := some .IPU4_REQ_ERROR, st := st, req := req, trace := [] }
  else
    match lookup hash_min st req.op with
    | none => { ret := some .IPU4_REQ_ERROR, st := st, req := req, trace := [] }
    | some sn =>
      match sn.f.private_data with
      | none => { ret := some .IPU4_REQ_ERROR, st := st, req := req, trace := [] }
      | some strm_dev =>
        match env.map_guest_phys domid req.payload with
        | none =>
          { ret := some .IPU4_REQ_ERROR, st := st, req := req,
            trace := [Call.map_guest_phys domid req.payload] }
        | some host_virt =>
          { ret := some .IPU4_REQ_PROCESSED, st := st, req := req,
            trace := [Call.map_guest_phys domid req.payload,
                      Call.ici_set_format sn.f strm_dev host_virt] }

/-- The `process_poll` of the source. `dev_to_stream` of a null `private_data` is not a
stream, and taking its queue lock does not return. -/
def process_poll (hash_min : Nat → Fin HASH_SIZE) (env : Env) (st : Registry)
    (req_info : ipu4_virtio_req_info) : Result :=
  let req := req_info.request
  if !st.hash_initialised then
    { ret := some .IPU4_REQ_ERROR, st := st, req := req, trace := [] }
  else
    match lookup hash_min st req.op with
    | none => { ret := some .IPU4_REQ_ERROR, st := st, req := req, trace := [] }
    | some sn =>
      match sn.f.private_data with
      | none => { ret := none, st := st, req := req, trace := [] }
      | some as =>
        let empty := env.list_empty as
        if !empty then
          { ret := some .IPU4_REQ_PROCESSED, st := st, req := { req with func_ret := 1 },
            trace := [Call.list_empty as] }
        else
          let time_remain := env.wait_event_interruptible_timeout as
          if time_remain ≠ 0 then
            { ret := some .IPU4_REQ_PROCESSED, st := st, req := { req with func_ret := 1 },
              trace := [Call.list_empty as, Call.wait_event_interruptible_timeout as] }
          else
            { ret := some .IPU4_REQ_ERROR, st := st, req := { req with func_ret := 0 },
              trace := [Call.list_empty as, Call.wait_event_interruptible_timeout as] }

/-- The `process_put_buf` of the source. -/
def process_put_buf (hash_min : Nat → Fin HASH_SIZE) (env : Env) (st : Registry)
    (req_info : ipu4_virtio_req_info) : Result :=
  let req := req_info.request
  let domid := req_info.domid
  if !st.hash_initialised then
    { ret := some .IPU4_REQ_ERROR, st := st, req := req, trace := [] }
  else
    match lookup hash_min st req.op with
    | none => { ret := some .IPU4_REQ_ERROR, st := st, req := req, trace := [] }
    | some sn =>
      match sn.f.private_data with
      | none => { ret := some .IPU4_REQ_ERROR, st := st, req := req, trace := [] }
      | some strm_dev =>
        match env.map_guest_phys domid req.payload with
        | none =>
          { ret := some .IPU4_REQ_ERROR, st := st, req := req,
            trace := [Call.map_guest_phys domid req.payload] }
        | some host_virt =>
          { ret := some .IPU4_REQ_PROCESSED, st := st, req := req,
            trace := [Call.map_guest_phys domid req.payload,
                      Call.ici_put_buf sn.f strm_dev host_virt] }

/-- What the page loop of `process_get_buf` leaves: the pages stored in `data_pages[0..k)`,
the translator calls made, and whether the loop left through `break`. -/
structure PageImport where
  pages : List Nat
  trace : List Call
  failed : Bool

/-- The loop `for (i = 0; i < npages; i++)` of `process_get_buf`, started at index `i` with
`n` iterations to go: entry `page_table[i]` is translated; a null translation ends the loop,
otherwise the page of the address is stored in the next slot. -/
def import_pages (env : Env) (domid : Int) (page_table : Nat) : Nat → Nat → PageImport
  | 0, _ => { pages := [], trace := [], failed := false }
  | n + 1, i =>
    let gpa := env.page_table page_table i
    match env.map_guest_phys domid gpa with
    | none => { pages := [], trace := [Call.map_guest_phys domid gpa], failed := true }
    | some pageaddr =>
      let r := import_pages env domid page_table n (i + 1)
      { pages := env.virt_to_page pageaddr :: r.pages,
        trace := Call.map_guest_phys domid gpa :: r.trace,
        failed := r.failed }

/-- The `process_get_buf` of the source. A null `shared_buf` is recorded in `req->stat`
and then read through; a null `data_pages` is recorded in `req->stat` and then written
through at the first page that translates. -/
def process_get_buf (hash_min : Nat → Fin HASH_SIZE) (env : Env) (st : Registry)
    (req_info : ipu4_virtio_req_info) : Result :=
  let req := req_info.request
  let domid := req_info.domid
  if !st.hash_initialised then
    { ret := some .IPU4_REQ_ERROR, st := st, req := req, trace := [] }
  else
    match lookup hash_min st req.op with
    | none => { ret := some .IPU4_REQ_ERROR, st := st, req := req, trace := [] }
    | some sn =>
      match env.map_guest_phys domid req.payload with
      | none =>
        -- req->stat = IPU4_REQ_ERROR; then shared_buf->kframe_info.planes[0].npages
        { ret := none, st := st, req := { req with stat := some .IPU4_REQ_ERROR },
          trace := [Call.map_guest_phys domid req.payload] }
      | some shared_buf =>
        let npages := env.npages shared_buf
        let alloc := env.kcalloc npages
        let req1 := if alloc then req else { req with stat := some .IPU4_REQ_ERROR }
        let page_table_ref := env.page_table_ref shared_buf
        let tr := [Call.map_guest_phys domid req.payload, Call.kcalloc npages,
                   Call.map_guest_phys domid page_table_ref]
        match env.map_guest_phys domid page_table_ref with
        | none =>
          { ret := some .IPU4_REQ_ERROR, st := st,
            req := { req1 with stat := some .IPU4_REQ_ERROR }, trace := tr ++ [Call.kfree] }
        | some page_table =>
          let imp := import_pages env domid page_table npages.toNat 0
          if !alloc && !imp.pages.isEmpty then
            -- data_pages[0] = virt_to_page(pageaddr) with data_pages == NULL
            { ret := none, st := st, req := req1, trace := tr ++ imp.trace.take 1 }
          else
            let req2 := if imp.failed then { req1 with stat := some .IPU4_REQ_ERROR } else req1
            let data_pages : Option (List (Option Nat)) :=
              if alloc then
                some (imp.pages.map some ++
                  List.replicate (npages.toNat - imp.pages.length) none)
              else none
            match sn.f.private_data with
            | none =>
              { ret := some .IPU4_REQ_ERROR, st := st, req := req2,
                trace := tr ++ imp.trace ++ [Call.kfree] }
            | some strm_dev =>
              { ret := some .IPU4_REQ_PROCESSED, st := st, req := req2,
                trace := tr ++ imp.trace ++
                  [Call.ici_get_buf_virt sn.f strm_dev shared_buf data_pages, Call.kfree] }

/-- The `process_stream_on` of the source. -/
def process_stream_on (hash_min : Nat → Fin HASH_SIZE) (_env : Env) (st : Registry)
    (req_info : ipu4_virtio_req_info) : Result :=
  let req := req_info.request
  if !st.hash_initialised then
    { ret := some .IPU4_REQ_ERROR, st := st, req := req, trace := [] }
  else
    match lookup hash_min st req.op with
    | none => { ret := some .IPU4_REQ_ERROR, st := st, req := req, trace := [] }
    | some sn =>
      match sn.f.private_data with
      | none => { ret := some .IPU4_REQ_ERROR, st := st, req := req, trace := [] }
      | some strm_dev =>
        { ret := some .IPU4_REQ_PROCESSED, st := st, req := req,
          trace := [Call.ici_stream_on sn.f strm_dev] }

/-- The `process_stream_off` of the source. -/
def process_stream_off (hash_min : Nat → Fin HASH_SIZE) (_env : Env) (st : Registry)
    (req_info : ipu4_virtio_req_info) : Result :=
  let req := req_info.request
  if !st.hash_initialised then
    { ret := some .IPU4_REQ_ERROR, st := st, req := req, trace := [] }
  else
    match lookup hash_min st req.op with
    | none => { ret := some .IPU4_REQ_ERROR, st := st, req := req, trace := [] }
    | some sn =>
      match sn.f.private_data with
      | none => { ret := some .IPU4_REQ_ERROR, st := st, req := req, trace := [] }
      | some strm_dev =>
        { ret := some .IPU4_REQ_PROCESSED, st := st, req := req,
          trace := [Call.ici_stream_off sn.f strm_dev] }

/-! ## Sequences of requests -/

/-- The eight handlers. -/
inductive Handler where
  | device_open
  | device_close
  | set_format
  | poll
  | put_buf
  | get_buf
  | stream_on
  | stream_off
deriving DecidableEq, Repr

/-- One call of a handler. -/
def handle (hash_min : Nat → Fin HASH_SIZE) (h : Handler) (env : Env) (st : Registry)
    (req_info : ipu4_virtio_req_info) : Result :=
  match h with
  | .device_open => process_device_open hash_min env st req_info
  | .device_close => process_device_close hash_min env st req_info
  | .set_format => process_set_format hash_min env st req_info
  | .poll => process_poll hash_min env st req_info
  | .put_buf => process_put_buf hash_min env st req_info
  | .get_buf => process_get_buf hash_min env st req_info
  | .stream_on => process_stream_on hash_min env st req_info
  | .stream_off => process_stream_off hash_min env st req_info

/-- The registry states reached from the initial registry by finitely many handler calls,
each with any request and any outcomes of its external calls. The state a call leaves
counts also when the call did not return. -/
inductive Reachable (hash_min : Nat → Fin HASH_SIZE) : Registry → Prop where
  | init : Reachable hash_min Registry.initial
  | step {st : Registry} (hst : Reachable hash_min st) (h : Handler) (env : Env)
      (req_info : ipu4_virtio_req_info) : Reachable hash_min (handle hash_min h env st req_info).st

/-- Open requests run one after another: the values returned, in order, and the registry
left by the last one. Every call sees the same oracles. -/
def run_opens (hash_min : Nat → Fin HASH_SIZE) (env : Env) :
    Registry → List ipu4_virtio_req_info → List (Option ReqStatus) × Registry
  | st, [] => ([], st)
  | st, r :: rs =>
    let res := process_device_open hash_min env st r
    let rest := run_opens hash_min env res.st rs
    (res.ret :: rest.1, rest.2)

/-! ## Sample inputs -/

/-- One bucket function, used where the development is evaluated at concrete inputs. -/
def hash_mod : Nat → Fin HASH_SIZE :=
  fun key => ⟨key % HASH_SIZE, Nat.mod_lt key (by decide)⟩

/-- Oracles under which every external call succeeds: each stream node opens on a device,
every guest address translates to itself, buffers have three pages, the queue is empty and
the wait sees a buffer arrive. -/
def env_ok : Env :=
  { kzalloc := true
    filp_open := fun id => some { private_data := some { dev := id, virt_dev_id := 0 } }
    map_guest_phys := fun _ gpa => some gpa
    kcalloc := fun _ => true
    npages := fun _ => 3
    page_table_ref := fun p => p + 1
    page_table := fun p i => p + 10 + i
    virt_to_page := fun a => a
    list_empty := fun _ => true
    wait_event_interruptible_timeout := fun _ => 1 }

/-- The oracles of `env_ok`, except that no guest address translates. -/
def env_unmapped : Env :=
  { env_ok with map_guest_phys := fun _ _ => none }

/-- The oracles of `env_ok`, except that no stream node can be opened. -/
def env_no_node : Env :=
  { env_ok with filp_open := fun _ => none }

/-- The oracles of `env_ok`, except that the queue holds a buffer when tested. -/
def env_queued : Env :=
  { env_ok with list_empty := fun _ => false }

/-- The oracles of `env_ok`, except that the wait runs out of time. -/
def env_timeout : Env :=
  { env_ok with wait_event_interruptible_timeout := fun _ => 0 }

/-- A request for stream `id` from guest `domid`, payload at address 100. -/
def mk_req (id : Nat) (domid : Int) : ipu4_virtio_req_info :=
  { request := { op := id, payload := 100, stat := none, func_ret := 0 }, domid := domid }

/-- Every chain of the table holds at most one node. -/
def ChainsShort (st : Registry) : Prop :=
  ∀ b : Fin HASH_SIZE, (st.STREAM_NODE_HASH b).length ≤ 1

/-! ## Shared lemmas -/

theorem open_on_head (hash_min : Nat → Fin HASH_SIZE) (env : Env) (st : Registry)
    (r : ipu4_virtio_req_info) (sn : stream_node) (rest : List stream_node)
    (hinit : st.hash_initialised = true)
    (hchain : hash_possible hash_min st r.request.op = sn :: rest) :
    process_device_open hash_min env st r =
      if sn.client_id ≠ r.domid then
        { ret := some .IPU4_REQ_ERROR, st := st, req := r.request, trace := [] }
      else
        { ret := some .IPU4_REQ_PROCESSED, st := st, req := r.request, trace := [] } := by
  unfold process_device_open
  simp only [hinit, if_true, hchain]

theorem open_processed_head (hash_min : Nat → Fin HASH_SIZE) (env : Env) (st : Registry)
    (r : ipu4_virtio_req_info)
    (hret : (process_device_open hash_min env st r).ret = some .IPU4_REQ_PROCESSED) :
    (process_device_open hash_min env st r).st.hash_initialised = true ∧
    ∃ sn rest, hash_possible hash_min (process_device_open hash_min env st r).st r.request.op
        = sn :: rest ∧ sn.client_id = r.domid := by
  unfold process_device_open at hret ⊢
  simp only at hret ⊢
  generalize hst1 : (if st.hash_initialised = true then st
    else { hash_init st with hash_initialised := true }) = st1 at hret ⊢
  have h1 : st1.hash_initialised = true := by
    subst hst1
    split
    · assumption
    · rfl
  cases hc : hash_possible hash_min st1 r.request.op with
  | cons sn rest =>
    simp only [hc] at hret ⊢
    by_cases hid : sn.client_id = r.domid
    · simp only [hid, ne_eq, not_true_eq_false, if_false]
      exact ⟨h1, sn, rest, hc, hid⟩
    · simp [hid] at hret
  | nil =>
    simp only [hc] at hret ⊢
    cases hk : env.kzalloc with
    | false => simp [hk] at hret
    | true =>
      simp only [hk, Bool.not_true, Bool.false_eq_true, if_false] at hret ⊢
      cases hf : env.filp_open r.request.op with
      | none => simp [hf] at hret
      | some f =>
        simp only [hf] at hret ⊢
        cases hp : f.private_data with
        | none => simp [hp] at hret
        | some d =>
          simp only [hp]
          refine ⟨h1, stream_node.mk r.domid (file.mk (some (ici_stream_device.mk d.dev
            r.request.op))), st1.STREAM_NODE_HASH (hash_min r.request.op), ?_, rfl⟩
          simp [hash_possible, hash_add]

theorem chainsShort_initial : ChainsShort Registry.initial := by
  intro b
  simp [Registry.initial]

theorem chainsShort_open (hash_min : Nat → Fin HASH_SIZE) (env : Env) (st : Registry)
    (r : ipu4_virtio_req_info) (hst : ChainsShort st) :
    ChainsShort (process_device_open hash_min env st r).st := by
  unfold process_device_open
  simp only
  generalize hst1 : (if st.hash_initialised = true then st
    else { hash_init st with hash_initialised := true }) = st1
  have h1 : ChainsShort st1 := by
    subst hst1
    split
    · exact hst
    · intro b
      simp [hash_init]
  cases hc : hash_possible hash_min st1 r.request.op with
  | cons sn rest =>
    simp only [hc]
    split <;> exact h1
  | nil =>
    simp only [hc]
    split
    · exact h1
    · split
      · exact h1
      · split
        · exact h1
        · intro b
          simp only [hash_add]
          by_cases hb : b = hash_min r.request.op
          · subst hb
            have hnil : st1.STREAM_NODE_HASH (hash_min r.request.op) = [] := hc
            simp [hnil]
          · rw [Function.update_noteq hb]
            exact h1 b

theorem chainsShort_close (hash_min : Nat → Fin HASH_SIZE) (env : Env) (st : Registry)
    (r : ipu4_virtio_req_info) (hst : ChainsShort st) :
    ChainsShort (process_device_close hash_min env st r).st := by
  unfold process_device_close
  simp only
  split
  · exact hst
  · cases hc : hash_possible hash_min st r.request.op with
    | nil => simpa only [hc] using hst
    | cons sn rest =>
      simp only [hc]
      intro b
      by_cases hb : b = hash_min r.request.op
      · subst hb
        have hlen := hst (hash_min r.request.op)
        have hcons : st.STREAM_NODE_HASH (hash_min r.request.op) = sn :: rest := hc
        rw [hcons] at hlen
        simp only [Function.update_same]
        simp only [List.length_cons] at hlen
        omega
      · show (Function.update st.STREAM_NODE_HASH (hash_min r.request.op) rest b).length ≤ 1
        rw [Function.update_noteq hb]
        exact hst b

theorem set_format_st (hash_min : Nat → Fin HASH_SIZE) (env : Env) (st : Registry)
    (r : ipu4_virtio_req_info) : (process_set_format hash_min env st r).st = st := by
  unfold process_set_format
  simp only
  repeat (first | rfl | split)

theorem poll_st (hash_min : Nat → Fin HASH_SIZE) (env : Env) (st : Registry)
    (r : ipu4_virtio_req_info) : (process_poll hash_min env st r).st = st := by
  unfold process_poll
  simp only
  repeat (first | rfl | split)

theorem put_buf_st (hash_min : Nat → Fin HASH_SIZE) (env : Env) (st : Registry)
    (r : ipu4_virtio_req_info) : (process_put_buf hash_min env st r).st = st := by
  unfold process_put_buf
  simp only
  repeat (first | rfl | split)

theorem get_buf_st (hash_min : Nat → Fin HASH_SIZE) (env : Env) (st : Registry)
    (r : ipu4_virtio_req_info) : (process_get_buf hash_min env st r).st = st := by
  unfold process_get_buf
  simp only
  repeat (first | rfl | split)

theorem stream_on_st (hash_min : Nat → Fin HASH_SIZE) (env : Env) (st : Registry)
    (r : ipu4_virtio_req_info) : (process_stream_on hash_min env st r).st = st := by
  unfold process_stream_on
  simp only
  repeat (first | rfl | split)

theorem stream_off_st (hash_min : Nat → Fin HASH_SIZE) (env : Env) (st : Registry)
    (r : ipu4_virtio_req_info) : (process_stream_off hash_min env st r).st = st := by
  unfold process_stream_off
  simp only
  repeat (first | rfl | split)

theorem chainsShort_handle (hash_min : Nat → Fin HASH_SIZE) (h : Handler) (env : Env)
    (st : Registry) (r : ipu4_virtio_req_info) (hst : ChainsShort st) :
    ChainsShort (handle hash_min h env st r).st := by
  cases h with
  | device_open => exact chainsShort_open hash_min env st r hst
  | device_close => exact chainsShort_close hash_min env st r hst
  | set_format => simpa only [handle, set_format_st] using hst
  | poll => simpa only [handle, poll_st] using hst
  | put_buf => simpa only [handle, put_buf_st] using hst
  | get_buf => simpa only [handle, get_buf_st] using hst
  | stream_on => simpa only [handle, stream_on_st] using hst
  | stream_off => simpa only [handle, stream_off_st] using hst

theorem chainsShort_of_reachable (hash_min : Nat → Fin HASH_SIZE) (st : Registry)
    (hst : Reachable hash_min st) : ChainsShort st := by
  induction hst with
  | init => exact chainsShort_initial
  | step _ h env r ih => exact chainsShort_handle hash_min h env _ r ih

theorem import_pages_all (env : Env) (domid : Int) (page_table : Nat) (addr : Nat → Nat)
    (n i : Nat)
    (h : ∀ j, j < n → env.map_guest_phys domid (env.page_table page_table (i + j))
      = some (addr (i + j))) :
    (import_pages env domid page_table n i).pages
        = (List.range n).map (fun j => env.virt_to_page (addr (i + j))) ∧
    (import_pages env domid page_table n i).failed = false := by
  induction n generalizing i with
  | zero => exact ⟨rfl, rfl⟩
  | succ n ih =>
    have h0 := h 0 (Nat.succ_pos n)
    rw [Nat.add_zero] at h0
    have hrest := ih (i + 1) (fun j hj => by
      have := h (j + 1) (Nat.succ_lt_succ hj)
      rw [Nat.add_assoc, Nat.add_comm 1 j]
      exact this)
    unfold import_pages
    simp only [h0, hrest.1, hrest.2, List.range_succ_eq_map, List.map_cons, List.map_map,
      Nat.add_zero, and_true]
    congr 1
    apply List.map_congr_left
    intro j _
    simp only [Function.comp_apply, Nat.succ_eq_add_one]
    rw [Nat.add_assoc, Nat.add_comm 1 j]

theorem import_pages_trace_no_export (env : Env) (domid : Int) (page_table : Nat) (n i : Nat) :
    (import_pages env domid page_table n i).trace.filter Call.isExport = [] := by
  induction n generalizing i with
  | zero => rfl
  | succ n ih =>
    unfold import_pages
    simp only
    split
    · rfl
    · simp only [List.filter_cons, Call.isExport, Bool.false_eq_true, if_false]
      exact ih (i + 1)

theorem get_buf_null_shared_buf (hash_min : Nat → Fin HASH_SIZE) (env : Env) (st : Registry)
    (r : ipu4_virtio_req_info) (sn : stream_node)
    (hinit : st.hash_initialised = true)
    (hopen : lookup hash_min st r.request.op = some sn)
    (hmap : env.map_guest_phys r.domid r.request.payload = none) :
    (process_get_buf hash_min env st r).ret = none ∧
    (process_get_buf hash_min env st r).req.stat = some .IPU4_REQ_ERROR ∧
    (process_get_buf hash_min env st r).trace
      = [Call.map_guest_phys r.domid r.request.payload] := by
  unfold process_get_buf
  simp [hinit, hopen, hmap]

theorem open_failed_filp_open (hash_min : Nat → Fin HASH_SIZE) (env : Env) (st : Registry)
    (r : ipu4_virtio_req_info)
    (hinit : st.hash_initialised = true)
    (hnone : hash_possible hash_min st r.request.op = [])
    (halloc : env.kzalloc = true)
    (hfail : env.filp_open r.request.op = none) :
    (process_device_open hash_min env st r).ret = none ∧
    (process_device_open hash_min env st r).st = st := by
  unfold process_device_open
  simp [hinit, hnone, halloc, hfail]

theorem open_null_private_data (hash_min : Nat → Fin HASH_SIZE) (env : Env) (st : Registry)
    (r : ipu4_virtio_req_info) (f : file)
    (hinit : st.hash_initialised = true)
    (hnone : hash_possible hash_min st r.request.op = [])
    (halloc : env.kzalloc = true)
    (hfile : env.filp_open r.request.op = some f)
    (hnull : f.private_data = none) :
    (process_device_open hash_min env st r).ret = some .IPU4_REQ_ERROR ∧
    (process_device_open hash_min env st r).st = st := by
  unfold process_device_open
  simp [hinit, hnone, halloc, hfile, hnull]

theorem exists_bucket_collision (hash_min : Nat → Fin HASH_SIZE) :
    ∃ s1 s2 : Nat, s1 ≤ HASH_SIZE ∧ s2 ≤ HASH_SIZE ∧ s1 ≠ s2 ∧ hash_min s1 = hash_min s2 := by
  have hcard : Fintype.card (Fin HASH_SIZE) < Fintype.card (Fin (HASH_SIZE + 1)) := by
    simp
  obtain ⟨x, y, hxy, hf⟩ :=
    Fintype.exists_ne_map_eq_of_card_lt (fun k : Fin (HASH_SIZE + 1) => hash_min k.val) hcard
  refine ⟨x.val, y.val, Nat.lt_succ_iff.mp x.isLt, Nat.lt_succ_iff.mp y.isLt, ?_, hf⟩
  exact fun h => hxy (Fin.ext h)

theorem open_initial_ok (hash_min : Nat → Fin HASH_SIZE) (s : Nat) (T : Int) :
    (process_device_open hash_min env_ok Registry.initial (mk_req s T)).ret
        = some .IPU4_REQ_PROCESSED ∧
    (process_device_open hash_min env_ok Registry.initial (mk_req s T)).st
        = { hash_initialised := true,
            STREAM_NODE_HASH := Function.update (fun _ => []) (hash_min s)
              [{ client_id := T, f := { private_data := some { dev := s, virt_dev_id := s } } }] } := by
  unfold process_device_open
  simp [Registry.initial, hash_init, hash_possible, hash_add, env_ok, mk_req]

theorem count_single (b : Fin HASH_SIZE) (sn : stream_node) (i : Bool) :
    Registry.count { hash_initialised := i,
                     STREAM_NODE_HASH := Function.update (fun _ => []) b [sn] } = 1 := by
  unfold Registry.count
  rw [← Fin.sum_univ_def, Finset.sum_eq_single b]
  · simp
  · intro c _ hc
    simp [Function.update_noteq hc]
  · simp

theorem count_empty (st : Registry) (h : ∀ b, st.STREAM_NODE_HASH b = []) :
    st.count = 0 := by
  unfold Registry.count
  rw [← Fin.sum_univ_def]
  apply Finset.sum_eq_zero
  intro c _
  simp [h c]

/-! ## The claims -/

/-- C1: once `process_device_open` for stream `s` from guest `T` has returned
`IPU4_REQ_PROCESSED`, a second open of `s` by `T` returns `IPU4_REQ_PROCESSED`, makes no
external call and leaves the registry as it is; an open of `s` by another guest returns
`IPU4_REQ_ERROR` and leaves the registry as it is, and the node found for `s` still has
`client_id = T`. -/
theorem open_again_same_and_other_guest (hash_min : Nat → Fin HASH_SIZE)
    (env env2 env3 : Env) (st : Registry) (r r2 r3 : ipu4_virtio_req_info)
    (hopen : (process_device_open hash_min env st r).ret = some .IPU4_REQ_PROCESSED)
    (hs2 : r2.request.op = r.request.op) (ht2 : r2.domid = r.domid)
    (hs3 : r3.request.op = r.request.op) (ht3 : r3.domid ≠ r.domid) :
    (process_device_open hash_min env2 (process_device_open hash_min env st r).st r2).ret
        = some .IPU4_REQ_PROCESSED ∧
    (process_device_open hash_min env2 (process_device_open hash_min env st r).st r2).st
        = (process_device_open hash_min env st r).st ∧
    (process_device_open hash_min env2 (process_device_open hash_min env st r).st r2).trace
        = [] ∧
    (process_device_open hash_min env3 (process_device_open hash_min env st r).st r3).ret
        = some .IPU4_REQ_ERROR ∧
    (process_device_open hash_min env3 (process_device_open hash_min env st r).st r3).st
        = (process_device_open hash_min env st r).st ∧
    (lookup hash_min
        (process_device_open hash_min env3 (process_device_open hash_min env st r).st r3).st
        r.request.op).map stream_node.client_id = some r.domid := by
  obtain ⟨hinit, sn, rest, hchain, hid⟩ := open_processed_head hash_min env st r hopen
  have h2 := open_on_head hash_min env2 _ r2 sn rest hinit (by rw [hs2]; exact hchain)
  have h3 := open_on_head hash_min env3 _ r3 sn rest hinit (by rw [hs3]; exact hchain)
  have hne : sn.client_id ≠ r3.domid := by
    rw [hid]
    exact fun h => ht3 h.symm
  have heq : ¬ sn.client_id ≠ r2.domid := by
    rw [hid, ht2]
    exact fun h => h rfl
  rw [h2, h3, if_neg heq, if_pos hne]
  refine ⟨rfl, rfl, rfl, rfl, rfl, ?_⟩
  simp [lookup, hchain, hid]

/-- C1 at a concrete input: stream 2 opened by guest 1 on the initial registry, then
re-opened by guest 1 and by guest 7. -/
theorem open_again_same_and_other_guest_witness :
    (process_device_open hash_mod env_ok Registry.initial (mk_req 2 1)).ret
        = some .IPU4_REQ_PROCESSED ∧
    (process_device_open hash_mod env_ok
        (process_device_open hash_mod env_ok Registry.initial (mk_req 2 1)).st (mk_req 2 1)).ret
        = some .IPU4_REQ_PROCESSED ∧
    (process_device_open hash_mod env_ok
        (process_device_open hash_mod env_ok Registry.initial (mk_req 2 1)).st (mk_req 2 7)).ret
        = some .IPU4_REQ_ERROR :=
  ⟨by decide,
   (open_again_same_and_other_guest hash_mod env_ok env_ok env_ok Registry.initial
      (mk_req 2 1) (mk_req 2 1) (mk_req 2 7) (by decide) rfl rfl rfl (by decide)).1,
   (open_again_same_and_other_guest hash_mod env_ok env_ok env_ok Registry.initial
      (mk_req 2 1) (mk_req 2 1) (mk_req 2 7) (by decide) rfl rfl rfl (by decide)).2.2.2.1⟩

/-- C10: in every registry state reachable from the initial registry by calls of the
eight handlers, with any requests and any outcomes of the external calls, the chain that a
lookup of any stream id walks holds at most one `stream_node`. -/
theorem reachable_one_node_per_stream (hash_min : Nat → Fin HASH_SIZE) (st : Registry)
    (hst : Reachable hash_min st) (s : Nat) :
    (hash_possible hash_min st s).length ≤ 1 :=
  chainsShort_of_reachable hash_min st hst (hash_min s)

/-- C10 at a concrete input: the registry left by opening stream 2 and then stream 66,
which share a bucket under `hash_mod`. -/
theorem reachable_one_node_per_stream_witness :
    (hash_possible hash_mod
      (handle hash_mod .device_open env_ok
        (handle hash_mod .device_open env_ok Registry.initial (mk_req 2 1)).st
        (mk_req 66 1)).st 66).length ≤ 1 :=
  reachable_one_node_per_stream hash_mod _
    (Reachable.step (Reachable.step Reachable.init .device_open env_ok (mk_req 2 1))
      .device_open env_ok (mk_req 66 1)) 66

/-- C5: when `map_guest_phys` fails on the payload of the request, `process_set_format`
and `process_put_buf` return `IPU4_REQ_ERROR` and none of the calls they made is a call
to the device, whatever the registry and the request. -/
theorem set_format_put_buf_unmapped_payload (hash_min : Nat → Fin HASH_SIZE) (env : Env)
    (st : Registry) (r : ipu4_virtio_req_info)
    (hmap : env.map_guest_phys r.domid r.request.payload = none) :
    (process_set_format hash_min env st r).ret = some .IPU4_REQ_ERROR ∧
    (process_set_format hash_min env st r).trace.filter Call.isDevice = [] ∧
    (process_put_buf hash_min env st r).ret = some .IPU4_REQ_ERROR ∧
    (process_put_buf hash_min env st r).trace.filter Call.isDevice = [] := by
  refine ⟨?_, ?_, ?_, ?_⟩
  · unfold process_set_format
    simp only [hmap]
    repeat (first | rfl | split)
  · unfold process_set_format
    simp only [hmap]
    repeat (first | rfl | split)
  · unfold process_put_buf
    simp only [hmap]
    repeat (first | rfl | split)
  · unfold process_put_buf
    simp only [hmap]
    repeat (first | rfl | split)

/-- C5 at a concrete input: stream 2 is open and its payload address does not translate. -/
theorem set_format_put_buf_unmapped_payload_witness :
    env_unmapped.map_guest_phys (mk_req 2 1).domid (mk_req 2 1).request.payload = none ∧
    (process_set_format hash_mod env_unmapped
        (process_device_open hash_mod env_ok Registry.initial (mk_req 2 1)).st
        (mk_req 2 1)).ret = some .IPU4_REQ_ERROR ∧
    (process_put_buf hash_mod env_unmapped
        (process_device_open hash_mod env_ok Registry.initial (mk_req 2 1)).st
        (mk_req 2 1)).trace.filter Call.isDevice = [] :=
  ⟨rfl,
   (set_format_put_buf_unmapped_payload hash_mod env_unmapped
      (process_device_open hash_mod env_ok Registry.initial (mk_req 2 1)).st
      (mk_req 2 1) rfl).1,
   (set_format_put_buf_unmapped_payload hash_mod env_unmapped
      (process_device_open hash_mod env_ok Registry.initial (mk_req 2 1)).st
      (mk_req 2 1) rfl).2.2.2⟩

/-- C8: for a poll on an open stream, if the queue is non-empty when tested,
`process_poll` returns `IPU4_REQ_PROCESSED` with `func_ret = 1` and its calls hold no wait;
if the queue is empty, it returns `IPU4_REQ_PROCESSED` with `func_ret = 1` when the wait
reports that a buffer arrived (nonzero), and `IPU4_REQ_ERROR` with `func_ret = 0` when the
wait reports that none did (zero). -/
theorem poll_outcomes (hash_min : Nat → Fin HASH_SIZE) (env : Env) (st : Registry)
    (r : ipu4_virtio_req_info) (sn : stream_node) (as : ici_stream_device)
    (hinit : st.hash_initialised = true)
    (hopen : lookup hash_min st r.request.op = some sn)
    (hdev : sn.f.private_data = some as) :
    (env.list_empty as = false →
      (process_poll hash_min env st r).ret = some .IPU4_REQ_PROCESSED ∧
      (process_poll hash_min env st r).req.func_ret = 1 ∧
      (process_poll hash_min env st r).trace.filter Call.isWait = []) ∧
    (env.list_empty as = true → env.wait_event_interruptible_timeout as ≠ 0 →
      (process_poll hash_min env st r).ret = some .IPU4_REQ_PROCESSED ∧
      (process_poll hash_min env st r).req.func_ret = 1) ∧
    (env.list_empty as = true → env.wait_event_interruptible_timeout as = 0 →
      (process_poll hash_min env st r).ret = some .IPU4_REQ_ERROR ∧
      (process_poll hash_min env st r).req.func_ret = 0) := by
  unfold process_poll
  simp only [hinit, hopen, hdev]
  refine ⟨?_, ?_, ?_⟩
  · intro he
    simp [he, Call.isWait]
  · intro he hw
    simp [he, hw]
  · intro he hw
    simp [he, hw]

/-- C8 at a concrete input: stream 2 is open; the queue is non-empty; the queue is empty
and the wait sees a buffer; the queue is empty and the wait times out. -/
theorem poll_outcomes_witness :
    (process_poll hash_mod env_queued
        (process_device_open hash_mod env_ok Registry.initial (mk_req 2 1)).st
        (mk_req 2 1)).trace.filter Call.isWait = [] ∧
    (process_poll hash_mod env_ok
        (process_device_open hash_mod env_ok Registry.initial (mk_req 2 1)).st
        (mk_req 2 1)).req.func_ret = 1 ∧
    (process_poll hash_mod env_timeout
        (process_device_open hash_mod env_ok Registry.initial (mk_req 2 1)).st
        (mk_req 2 1)).ret = some .IPU4_REQ_ERROR :=
  ⟨((poll_outcomes hash_mod env_queued
      (process_device_open hash_mod env_ok Registry.initial (mk_req 2 1)).st (mk_req 2 1)
      ⟨1, ⟨some ⟨2, 2⟩⟩⟩ ⟨2, 2⟩ rfl (by decide) rfl).1 rfl).2.2,
   ((poll_outcomes hash_mod env_ok
      (process_device_open hash_mod env_ok Registry.initial (mk_req 2 1)).st (mk_req 2 1)
      ⟨1, ⟨some ⟨2, 2⟩⟩⟩ ⟨2, 2⟩ rfl (by decide) rfl).2.1 rfl (by decide)).2,
   ((poll_outcomes hash_mod env_timeout
      (process_device_open hash_mod env_ok Registry.initial (mk_req 2 1)).st (mk_req 2 1)
      ⟨1, ⟨some ⟨2, 2⟩⟩⟩ ⟨2, 2⟩ rfl (by decide) rfl).2.2 rfl rfl).1⟩

/-- C7: for a get-buffer request on an open stream with a device, whose descriptor reports
`N` pages in plane 0, when the payload, the page table and the `N` entries of the page table
translate and the page list is allocated, `process_get_buf` returns `IPU4_REQ_PROCESSED`
and calls `ici_get_buf_virt` exactly once, with a page list of length `N` whose `i`-th slot
is the page of the translation of entry `i`. -/
theorem get_buf_exports_every_page (hash_min : Nat → Fin HASH_SIZE) (env : Env)
    (st : Registry) (r : ipu4_virtio_req_info) (sn : stream_node)
    (strm_dev : ici_stream_device) (shared_buf page_table N : Nat) (addr : Nat → Nat)
    (hinit : st.hash_initialised = true)
    (hopen : lookup hash_min st r.request.op = some sn)
    (hdev : sn.f.private_data = some strm_dev)
    (hpay : env.map_guest_phys r.domid r.request.payload = some shared_buf)
    (hn : env.npages shared_buf = (N : Int))
    (halloc : env.kcalloc (N : Int) = true)
    (htab : env.map_guest_phys r.domid (env.page_table_ref shared_buf) = some page_table)
    (hpages : ∀ i, i < N →
      env.map_guest_phys r.domid (env.page_table page_table i) = some (addr i)) :
    (process_get_buf hash_min env st r).ret = some .IPU4_REQ_PROCESSED ∧
    (process_get_buf hash_min env st r).trace.filter Call.isExport
      = [Call.ici_get_buf_virt sn.f strm_dev shared_buf
          (some ((List.range N).map (fun i => some (env.virt_to_page (addr i)))))] ∧
    ((List.range N).map (fun i => some (env.virt_to_page (addr i)))).length = N := by
  have himp := import_pages_all env r.domid page_table addr N 0
    (fun j hj => by simpa only [Nat.zero_add] using hpages j hj)
  have hnoexp := import_pages_trace_no_export env r.domid page_table N 0
  simp only [Nat.zero_add] at himp
  unfold process_get_buf
  simp only [hinit, hopen, hpay, hn, halloc, htab, hdev, Int.toNat_ofNat, himp.1, himp.2]
  simp [Call.isExport, hnoexp]

/-- C7 at a concrete input: stream 2 is open and the descriptor reports three pages. -/
theorem get_buf_exports_every_page_witness :
    (process_get_buf hash_mod env_ok
        (process_device_open hash_mod env_ok Registry.initial (mk_req 2 1)).st
        (mk_req 2 1)).trace.filter Call.isExport
      = [Call.ici_get_buf_virt ⟨some ⟨2, 2⟩⟩ ⟨2, 2⟩ 100 (some [some 111, some 112, some 113])] :=
  (get_buf_exports_every_page hash_mod env_ok
      (process_device_open hash_mod env_ok Registry.initial (mk_req 2 1)).st (mk_req 2 1)
      ⟨1, ⟨some ⟨2, 2⟩⟩⟩ ⟨2, 2⟩ 100 101 3 (fun i => 111 + i)
      rfl (by decide) rfl rfl rfl rfl rfl (fun _ _ => rfl)).2.1

/-- C2 fails on the code: whatever the bucket function, there are two distinct stream
ids among `0..64` such that, from the initial registry and with every device open
succeeding, the open of the first by guest 1 returns `IPU4_REQ_PROCESSED` and the open of
the second by guest 2 returns `IPU4_REQ_ERROR`, the registry ending with one node. -/
theorem opens_of_distinct_streams_collide (hash_min : Nat → Fin HASH_SIZE) :
    ∃ s1 s2 : Nat, s1 ≤ HASH_SIZE ∧ s2 ≤ HASH_SIZE ∧ s1 ≠ s2 ∧
      (run_opens hash_min env_ok Registry.initial [mk_req s1 1, mk_req s2 2]).1
        = [some .IPU4_REQ_PROCESSED, some .IPU4_REQ_ERROR] ∧
      (run_opens hash_min env_ok Registry.initial [mk_req s1 1, mk_req s2 2]).2.count = 1 := by
  obtain ⟨s1, s2, h1, h2, hne, hcol⟩ := exists_bucket_collision hash_min
  refine ⟨s1, s2, h1, h2, hne, ?_⟩
  obtain ⟨hret, hst⟩ := open_initial_ok hash_min s1 1
  have hsecond := open_on_head hash_min env_ok
    (process_device_open hash_min env_ok Registry.initial (mk_req s1 1)).st (mk_req s2 2)
    { client_id := 1, f := { private_data := some { dev := s1, virt_dev_id := s1 } } } []
    (by rw [hst]) (by rw [hst]; simp only [hash_possible, mk_req]; rw [← hcol]; simp only [Function.update_same])
  simp only [run_opens, hsecond, hret]
  rw [hst]
  refine ⟨by simp [mk_req], ?_⟩
  simp only [mk_req, ne_eq, show ¬ ((1 : Int) = 2) by decide, not_false_eq_true, if_true]
  exact count_single _ _ _

/-- C3 fails on the code: whatever the bucket function, there are two distinct stream
ids among `0..64` such that, after the first is opened on the initial registry, a close of
the second, which was never opened, returns `IPU4_REQ_PROCESSED` and removes the node of
the first, leaving the registry empty. -/
theorem close_of_unopened_stream_removes_other (hash_min : Nat → Fin HASH_SIZE) :
    ∃ s1 s2 : Nat, s1 ≤ HASH_SIZE ∧ s2 ≤ HASH_SIZE ∧ s1 ≠ s2 ∧
      (process_device_open hash_min env_ok Registry.initial (mk_req s1 1)).ret
        = some .IPU4_REQ_PROCESSED ∧
      (process_device_open hash_min env_ok Registry.initial (mk_req s1 1)).st.count = 1 ∧
      (process_device_close hash_min env_ok
        (process_device_open hash_min env_ok Registry.initial (mk_req s1 1)).st
        (mk_req s2 1)).ret = some .IPU4_REQ_PROCESSED ∧
      lookup hash_min (process_device_close hash_min env_ok
        (process_device_open hash_min env_ok Registry.initial (mk_req s1 1)).st
        (mk_req s2 1)).st s1 = none ∧
      (process_device_close hash_min env_ok
        (process_device_open hash_min env_ok Registry.initial (mk_req s1 1)).st
        (mk_req s2 1)).st.count = 0 := by
  obtain ⟨s1, s2, h1, h2, hne, hcol⟩ := exists_bucket_collision hash_min
  refine ⟨s1, s2, h1, h2, hne, ?_⟩
  obtain ⟨hret, hst⟩ := open_initial_ok hash_min s1 1
  rw [hst]
  refine ⟨hret, count_single _ _ _, ?_⟩
  unfold process_device_close
  simp only [Bool.not_true, Bool.false_eq_true, if_false, hash_possible, mk_req, lookup]
  rw [← hcol]
  simp only [Function.update_same, Function.update_idem]
  refine ⟨trivial, by simp, ?_⟩
  apply count_empty
  intro b
  by_cases hb : b = hash_min s1
  · rw [hb]
    show Function.update (fun _ => []) (hash_min s1) [] (hash_min s1) = []
    exact Function.update_same _ _ _
  · show Function.update (fun _ => []) (hash_min s1) [] b = []
    rw [Function.update_noteq hb]

/-- C6 fails on the code: with stream 2 open and a payload address that does not
translate, `process_get_buf` writes `IPU4_REQ_ERROR` to `req->stat` and then reads the
plane fields through the null descriptor: it returns nothing, whatever the bucket
function. -/
theorem get_buf_unmapped_payload_no_return (hash_min : Nat → Fin HASH_SIZE) :
    (process_get_buf hash_min env_unmapped
        (process_device_open hash_min env_ok Registry.initial (mk_req 2 1)).st
        (mk_req 2 1)).ret = none ∧
    (process_get_buf hash_min env_unmapped
        (process_device_open hash_min env_ok Registry.initial (mk_req 2 1)).st
        (mk_req 2 1)).req.stat = some .IPU4_REQ_ERROR := by
  obtain ⟨_, hst⟩ := open_initial_ok hash_min 2 1
  have h := get_buf_null_shared_buf hash_min env_unmapped
    (process_device_open hash_min env_ok Registry.initial (mk_req 2 1)).st (mk_req 2 1)
    { client_id := 1, f := { private_data := some { dev := 2, virt_dev_id := 2 } } }
    (by rw [hst]) (by rw [hst]; simp [lookup, hash_possible, mk_req]) rfl
  exact ⟨h.1, h.2.1⟩

/-- C9 fails on the code: on the initial registry, with `filp_open` failing for stream 7,
`process_device_open` reads `private_data` through the pointer of the failed open: it
returns nothing, whatever the bucket function. -/
theorem open_failed_node_no_return (hash_min : Nat → Fin HASH_SIZE) :
    (process_device_open hash_min env_no_node Registry.initial (mk_req 7 1)).ret = none ∧
    (process_device_open hash_min env_no_node Registry.initial (mk_req 7 1)).trace
      = [Call.kzalloc, Call.filp_open 7] := by
  unfold process_device_open
  simp [Registry.initial, hash_init, hash_possible, env_no_node, env_ok, mk_req]

end Ipu4VirtioBe
